import Mathlib

/-!
Verification of the pronounce-backend relay (src/index.js).

The single source file is an Express app with one middleware (CORS /
origin filtering), a health endpoint, and a POST /pronounce handler that
validates a shared secret, validates required body fields, resolves the
audio container MIME, decodes the base64 audio payload, builds the
upstream Azure Speech request, and reshapes the upstream response.

The embedding models JavaScript/JSON values with the inductive `Json`
(absent object properties, i.e. `undefined`, are modelled as `Option`
`none` at access sites), JS truthiness, the `||` and nullish `??`
operators, `Number` coercion (with `NaN`/infinities via `JsNum`),
`Math.round`, `JSON.parse` / `JSON.stringify`, Node's forgiving base64
decoder, and UTF-8/base64 encoding.  JS numbers are modelled as exact
rationals; none of the proved statements depend on IEEE double rounding.
-/

namespace Pronounce

/-- A JSON / JavaScript value.  `undefined` does not occur as a stored
value in any structure this program builds (JSON bodies cannot contain
it); property access returns `Option Json` with `none` for absent. -/
inductive Json where
  | null
  | bool (b : Bool)
  | num (q : ℚ)
  | str (s : String)
  | arr (elems : List Json)
  | obj (fields : List (String × Json))

/-- JS truthiness of a value (ToBoolean).  `NaN` cannot occur here since
`Json.num` holds a rational; empty arrays and objects are truthy. -/
def truthy : Json → Bool
  | .null => false
  | .bool b => b
  | .num q => decide (q ≠ 0)
  | .str s => decide (s ≠ "")
  | .arr _ => true
  | .obj _ => true

/-- Truthiness of a possibly-absent value (`undefined` is falsy). -/
def truthyOpt : Option Json → Bool
  | none => false
  | some v => truthy v

/-- Property lookup in an object's field list; the LAST binding for a
key wins, as in JavaScript objects built by `JSON.parse` with duplicate
keys. -/
def objGetLast : List (String × Json) → String → Option Json
  | [], _ => none
  | (k, v) :: rest, key =>
      match objGetLast rest key with
      | some r => some r
      | none => if k == key then some v else none

/-- `x?.key` / `x.key` property access: `none` models `undefined`.
Primitive receivers have none of the properties this program reads
(they are not built-ins such as `length`), and `null` is only accessed
with `?.` in the source, yielding `undefined`. -/
def jsGet : Json → String → Option Json
  | .obj fs, key => objGetLast fs key
  | _, _ => none

/-- `a ?? b` where `a` is a property access (absent = undefined):
falls back exactly on `null` and `undefined`. -/
def coalesce (x : Option Json) (fallback : Json) : Json :=
  match x with
  | some Json.null => fallback
  | some v => v
  | none => fallback

/-- `a || b` where `a` is a property access (absent = undefined). -/
def jsOr (x : Option Json) (fallback : Json) : Json :=
  match x with
  | some v => if truthy v then v else fallback
  | none => fallback

/-! ### JS number semantics

JS numbers are modelled as exact rationals plus `NaN` and the two
infinities.  All values this program computes with stay exactly
representable, so no IEEE rounding is modelled. -/

/-- A JavaScript number: finite (exact rational), `NaN` or an
infinity. -/
inductive JsNum where
  | num (q : ℚ)
  | nan
  | inf
  | negInf
deriving DecidableEq, Repr

/-- JS whitespace as used by `String.prototype.trim` and
`StringToNumber` (the common code points; exotic Unicode spaces are
out of scope and never reached by any statement below). -/
def isJsSpace (c : Char) : Bool :=
  c == ' ' || c == '\t' || c == '\n' || c == '\r' ||
  c == Char.ofNat 11 || c == Char.ofNat 12 || c == Char.ofNat 0xA0 ||
  c == Char.ofNat 0xFEFF || c == Char.ofNat 0x2028 || c == Char.ofNat 0x2029

/-- `String.prototype.trim()`. -/
def jsTrim (s : String) : String :=
  String.mk (((s.toList.dropWhile isJsSpace).reverse.dropWhile isJsSpace).reverse)

/-- `String.prototype.toLowerCase()`; the strings this program
lowercases (MIME types, region codes) are ASCII, where `Char.toLower`
coincides with the JS Unicode mapping. -/
def jsToLower (s : String) : String :=
  String.mk (s.toList.map Char.toLower)

/-- `s.split(",")`. -/
def splitOnComma (cs : List Char) : List (List Char) :=
  match cs with
  | [] => [[]]
  | c :: rest =>
      let r := splitOnComma rest
      if c == ',' then [] :: r
      else
        match r with
        | g :: gs => (c :: g) :: gs
        | [] => [[c]]

/-- Split a leading run of decimal digits. -/
def takeDigits (cs : List Char) : List Char × List Char :=
  (cs.takeWhile Char.isDigit, cs.dropWhile Char.isDigit)

/-- Value of a list of decimal digits. -/
def decDigitsVal (ds : List Char) : Nat :=
  ds.foldl (fun a c => a * 10 + (c.toNat - 48)) 0

/-- Value of a hexadecimal digit, if any. -/
def hexDigitVal (c : Char) : Option Nat :=
  if c.isDigit then some (c.toNat - 48)
  else if 'a' ≤ c && c ≤ 'f' then some (c.toNat - 87)
  else if 'A' ≤ c && c ≤ 'F' then some (c.toNat - 55)
  else none

/-- Value of a nonempty digit string in the given radix (≤ 16). -/
def radixVal (base : Nat) (cs : List Char) : Option Nat :=
  cs.foldl
    (fun acc c =>
      match acc, hexDigitVal c with
      | some a, some d => if d < base then some (a * base + d) else none
      | _, _ => none)
    (if cs.isEmpty then none else some 0)

/-- Exponent digits after an optional sign; must be nonempty and all
decimal. -/
def expDigits (sgn : ℤ) (cs : List Char) : Option ℤ :=
  if !cs.isEmpty && cs.all Char.isDigit then some (sgn * decDigitsVal cs) else none

/-- Optional exponent part of `StrDecimalLiteral`; the whole remaining
input must be consumed. -/
def parseExpPart : List Char → Option ℤ
  | [] => some 0
  | c :: rest =>
      if c == 'e' || c == 'E' then
        match rest with
        | '+' :: rest2 => expDigits 1 rest2
        | '-' :: rest2 => expDigits (-1) rest2
        | _ => expDigits 1 rest
      else none

/-- `StrUnsignedDecimalLiteral` without the `Infinity` case, consuming
the entire input: `digits [. digits] [exp]` or `. digits [exp]`. -/
def parseDecimalCore (cs : List Char) : Option ℚ :=
  let p := takeDigits cs
  match p.2 with
  | '.' :: r2 =>
      let f := takeDigits r2
      if p.1.isEmpty && f.1.isEmpty then none
      else
        match parseExpPart f.2 with
        | some e => some (((decDigitsVal p.1 : ℚ) +
            (decDigitsVal f.1 : ℚ) / (10 : ℚ) ^ f.1.length) * (10 : ℚ) ^ e)
        | none => none
  | r1 =>
      if p.1.isEmpty then none
      else
        match parseExpPart r1 with
        | some e => some ((decDigitsVal p.1 : ℚ) * (10 : ℚ) ^ e)
        | none => none

/-- Signed decimal branch of `StringToNumber` (also handles
`Infinity`). -/
def strDecimal (cs : List Char) : JsNum :=
  let p : Bool × List Char :=
    match cs with
    | '+' :: rest => (true, rest)
    | '-' :: rest => (false, rest)
    | _ => (true, cs)
  if p.2 == "Infinity".toList then (if p.1 then .inf else .negInf)
  else
    match parseDecimalCore p.2 with
    | some q => .num (if p.1 then q else -q)
    | none => .nan

/-- ECMAScript `StringToNumber`: trim, empty ↦ 0, binary/octal/hex
literals, otherwise a signed decimal literal or `Infinity`; anything
else is `NaN`. -/
def stringToNumber (s : String) : JsNum :=
  let cs := ((s.toList.dropWhile isJsSpace).reverse.dropWhile isJsSpace).reverse
  match cs with
  | [] => .num 0
  | '0' :: c :: rest =>
      if c == 'x' || c == 'X' then
        match radixVal 16 rest with | some n => .num n | none => .nan
      else if c == 'o' || c == 'O' then
        match radixVal 8 rest with | some n => .num n | none => .nan
      else if c == 'b' || c == 'B' then
        match radixVal 2 rest with | some n => .num n | none => .nan
      else strDecimal cs
  | _ => strDecimal cs

/-- Decimal string of an integer. -/
def intToString (z : ℤ) : String :=
  if z < 0 then "-" ++ Nat.repr z.natAbs else Nat.repr z.natAbs

/-- Decimal digits of the fractional part `0 ≤ q < 1`, with fuel.
Exact whenever the expansion terminates within the fuel, which holds
for every value reachable from a JSON body (those are `m·10^e`). -/
def fracDigits : Nat → ℚ → List Char
  | 0, _ => []
  | Nat.succ fuel, q =>
      if q = 0 then []
      else
        let d := (⌊q * 10⌋).toNat
        Char.ofNat (48 + d) :: fracDigits fuel (q * 10 - d)

/-- JS `Number::toString` on the modelled numbers.  Exact for integers
and finite decimal fractions of moderate size; JS switches to
exponential form only outside `(1e-7, 1e21)`, which no statement below
reaches. -/
def qToString (q : ℚ) : String :=
  if q.den = 1 then intToString q.num
  else
    (if q < 0 then "-" else "") ++ Nat.repr (⌊|q|⌋).toNat ++ "." ++
      String.mk (fracDigits 64 (|q| - ⌊|q|⌋))

mutual

/-- `String()` conversion of a value (`ToString`); arrays join their
elements with commas, `null`/`undefined` elements joining as empty. -/
def jsToString : Json → String
  | .null => "null"
  | .bool b => if b then "true" else "false"
  | .num q => qToString q
  | .str s => s
  | .arr xs => joinList xs
  | .obj _ => "[object Object]"

def joinList : List Json → String
  | [] => ""
  | [x] => joinElem x
  | x :: y :: rest => joinElem x ++ "," ++ joinList (y :: rest)

def joinElem : Json → String
  | .null => ""
  | .bool b => if b then "true" else "false"
  | .num q => qToString q
  | .str s => s
  | .arr xs => joinList xs
  | .obj _ => "[object Object]"

end

/-- `Number()` coercion (ToNumber) of a JSON-reachable value: objects
go through `ToPrimitive`, i.e. their `toString`, then
`StringToNumber`. -/
def jsNumber : Json → JsNum
  | .null => .num 0
  | .bool b => .num (if b then 1 else 0)
  | .num q => .num q
  | .str s => stringToNumber s
  | .arr xs => stringToNumber (joinList xs)
  | .obj _ => stringToNumber "[object Object]"

/-- `Math.round`: `⌊x + 1/2⌋` on finite values, identity on `NaN` and
infinities. -/
def jsRound : JsNum → JsNum
  | .num q => .num ((⌊q + 1 / 2⌋ : ℤ) : ℚ)
  | .nan => .nan
  | .inf => .inf
  | .negInf => .negInf

/-- `JSON.stringify` renders `NaN` and the infinities as `null`; this
maps a computed JS number to the JSON value that appears in the
serialized response. -/
def jsNumToJson : JsNum → Json
  | .num q => .num q
  | .nan => .null
  | .inf => .null
  | .negInf => .null

/-- JS `x >= y` with a number literal on the right: false on `NaN`. -/
def jsGE (x : JsNum) (y : ℚ) : Bool :=
  match x with
  | .num q => decide (y ≤ q)
  | .nan => false
  | .inf => true
  | .negInf => false

/-! ### Bytes, base64, UTF-8, substring search -/

/-- `needle.isPrefixOf hay` on char lists. -/
def isPrefixList : List Char → List Char → Bool
  | [], _ => true
  | _ :: _, [] => false
  | a :: as, b :: bs => a == b && isPrefixList as bs

/-- Substring containment; models `String.prototype.includes`. -/
def containsSub (hay needle : List Char) : Bool :=
  match hay with
  | [] => needle.isEmpty
  | _ :: t => isPrefixList needle hay || containsSub t needle

/-- `s.includes(sub)`. -/
def strContains (s sub : String) : Bool :=
  containsSub s.toList sub.toList

/-- A character of the standard base64 alphabet. -/
def b64Char (n : Nat) : Char :=
  if n < 26 then Char.ofNat (65 + n)
  else if n < 52 then Char.ofNat (97 + (n - 26))
  else if n < 62 then Char.ofNat (48 + (n - 52))
  else if n = 62 then '+' else '/'

/-- Standard base64 encoding with padding (as
`Buffer.prototype.toString("base64")`). -/
def b64EncodeChunks : List Nat → List Char
  | b1 :: b2 :: b3 :: rest =>
      b64Char (b1 / 4) :: b64Char ((b1 % 4) * 16 + b2 / 16) ::
        b64Char ((b2 % 16) * 4 + b3 / 64) :: b64Char (b3 % 64) ::
        b64EncodeChunks rest
  | [b1, b2] => [b64Char (b1 / 4), b64Char ((b1 % 4) * 16 + b2 / 16),
      b64Char ((b2 % 16) * 4), '=']
  | [b1] => [b64Char (b1 / 4), b64Char ((b1 % 4) * 16), '=', '=']
  | [] => []

/-- `Buffer.from(bytes).toString("base64")`. -/
def b64encode (bytes : List Nat) : String :=
  String.mk (b64EncodeChunks bytes)

/-- Value of a base64 alphabet character; Node also accepts the
URL-safe variants `-` and `_`. -/
def b64Val (c : Char) : Option Nat :=
  if 'A' ≤ c && c ≤ 'Z' then some (c.toNat - 65)
  else if 'a' ≤ c && c ≤ 'z' then some (c.toNat - 71)
  else if c.isDigit then some (c.toNat + 4)
  else if c == '+' || c == '-' then some 62
  else if c == '/' || c == '_' then some 63
  else none

/-- Node's forgiving base64 scan: invalid characters are skipped and
decoding stops at the first `=` padding character. -/
def b64Sextets : List Char → List Nat
  | [] => []
  | '=' :: _ => []
  | c :: rest =>
      match b64Val c with
      | some v => v :: b64Sextets rest
      | none => b64Sextets rest

/-- Sextets to bytes: groups of 4 give 3 bytes; a trailing pair gives
one byte, a trailing triple two, a lone trailing sextet nothing. -/
def sextetsToBytes : List Nat → List Nat
  | a :: b :: c :: d :: rest =>
      (a * 4 + b / 16) :: ((b % 16) * 16 + c / 4) :: ((c % 4) * 64 + d) ::
        sextetsToBytes rest
  | [a, b] => [a * 4 + b / 16]
  | [a, b, c] => [a * 4 + b / 16, (b % 16) * 16 + c / 4]
  | _ => []

/-- `Buffer.from(s, "base64")` as a byte list. -/
def b64decode (s : String) : List Nat :=
  sextetsToBytes (b64Sextets s.toList)

/-- UTF-8 bytes of one scalar value. -/
def utf8Bytes (c : Char) : List Nat :=
  let n := c.toNat
  if n < 128 then [n]
  else if n < 2048 then [192 + n / 64, 128 + n % 64]
  else if n < 65536 then [224 + n / 4096, 128 + n / 64 % 64, 128 + n % 64]
  else [240 + n / 262144, 128 + n / 4096 % 64, 128 + n / 64 % 64, 128 + n % 64]

/-- `Buffer.from(s, "utf8")` as a byte list. -/
def utf8Encode (s : String) : List Nat :=
  (s.toList.map utf8Bytes).flatten

/-! ### JSON.stringify -/

/-- Lowercase hexadecimal digit. -/
def hexCharLower (n : Nat) : Char :=
  if n < 10 then Char.ofNat (48 + n) else Char.ofNat (87 + n)

/-- `JSON.stringify` escaping of one character. -/
def escapeChar (c : Char) : List Char :=
  if c == '"' then ['\\', '"']
  else if c == '\\' then ['\\', '\\']
  else if c == Char.ofNat 8 then ['\\', 'b']
  else if c == '\t' then ['\\', 't']
  else if c == '\n' then ['\\', 'n']
  else if c == Char.ofNat 12 then ['\\', 'f']
  else if c == '\r' then ['\\', 'r']
  else if c.toNat < 32 then
    ['\\', 'u', '0', '0', hexCharLower (c.toNat / 16), hexCharLower (c.toNat % 16)]
  else [c]

/-- A JSON string literal for `s`. -/
def quoteStr (s : String) : String :=
  "\"" ++ String.mk ((s.toList.map escapeChar).flatten) ++ "\""

mutual

/-- `JSON.stringify` (object keys in insertion order, no spacing). -/
def stringify : Json → String
  | .null => "null"
  | .bool b => if b then "true" else "false"
  | .num q => qToString q
  | .str s => quoteStr s
  | .arr xs => "[" ++ stringifyItems xs ++ "]"
  | .obj fs => "\x7b" ++ stringifyFields fs ++ "\x7d"

def stringifyItems : List Json → String
  | [] => ""
  | [x] => stringify x
  | x :: y :: rest => stringify x ++ "," ++ stringifyItems (y :: rest)

def stringifyFields : List (String × Json) → String
  | [] => ""
  | [(k, v)] => quoteStr k ++ ":" ++ stringify v
  | (k, v) :: f :: rest =>
      quoteStr k ++ ":" ++ stringify v ++ "," ++ stringifyFields (f :: rest)

end

/-! ### JSON.parse

A recursive-descent parser with explicit fuel; `jsonParse` supplies
fuel `4 * (length + 1)`, ample since at least one input character is
consumed for every two recursive calls on any path. -/

/-- JSON whitespace. -/
def skipWs (cs : List Char) : List Char :=
  cs.dropWhile (fun c => c == ' ' || c == '\t' || c == '\n' || c == '\r')

/-- Four hexadecimal digits. -/
def parseHex4 (cs : List Char) : Option (Nat × List Char) :=
  match cs with
  | a :: b :: c :: d :: rest =>
      match hexDigitVal a, hexDigitVal b, hexDigitVal c, hexDigitVal d with
      | some x, some y, some z, some w =>
          some (((x * 16 + y) * 16 + z) * 16 + w, rest)
      | _, _, _, _ => none
  | _ => none

/-- Body of a JSON string literal (after the opening quote), with fuel.
Surrogate pairs in `\u` escapes are combined; a lone surrogate (not a
Unicode scalar, unreachable in every statement below) degrades to NUL
via `Char.ofNat`. -/
def parseStrBody : Nat → List Char → Option (List Char × List Char)
  | 0, _ => none
  | Nat.succ fuel, cs =>
      match cs with
      | [] => none
      | c :: rest =>
          if c == '"' then some ([], rest)
          else if c == '\\' then
            match rest with
            | [] => none
            | e :: rest2 =>
                if e == '"' || e == '\\' || e == '/' then
                  (parseStrBody fuel rest2).map (fun p => (e :: p.1, p.2))
                else if e == 'b' then
                  (parseStrBody fuel rest2).map (fun p => (Char.ofNat 8 :: p.1, p.2))
                else if e == 'f' then
                  (parseStrBody fuel rest2).map (fun p => (Char.ofNat 12 :: p.1, p.2))
                else if e == 'n' then
                  (parseStrBody fuel rest2).map (fun p => ('\n' :: p.1, p.2))
                else if e == 'r' then
                  (parseStrBody fuel rest2).map (fun p => ('\r' :: p.1, p.2))
                else if e == 't' then
                  (parseStrBody fuel rest2).map (fun p => ('\t' :: p.1, p.2))
                else if e == 'u' then
                  match parseHex4 rest2 with
                  | some (n, rest3) =>
                      if 55296 ≤ n ∧ n ≤ 56319 then
                        match rest3 with
                        | '\\' :: 'u' :: rest4 =>
                            match parseHex4 rest4 with
                            | some (m, rest5) =>
                                if 56320 ≤ m ∧ m ≤ 57343 then
                                  (parseStrBody fuel rest5).map (fun p =>
                                    (Char.ofNat (65536 + (n - 55296) * 1024 + (m - 56320)) :: p.1, p.2))
                                else
                                  (parseStrBody fuel rest3).map (fun p =>
                                    (Char.ofNat n :: p.1, p.2))
                            | none =>
                                (parseStrBody fuel rest3).map (fun p =>
                                  (Char.ofNat n :: p.1, p.2))
                        | _ =>
                            (parseStrBody fuel rest3).map (fun p =>
                              (Char.ofNat n :: p.1, p.2))
                      else
                        (parseStrBody fuel rest3).map (fun p =>
                          (Char.ofNat n :: p.1, p.2))
                  | none => none
                else none
          else if c.toNat < 32 then none
          else (parseStrBody fuel rest).map (fun p => (c :: p.1, p.2))

/-- Fractional part of a JSON number (optional). -/
def parseFrac (cs : List Char) : Option (ℚ × List Char) :=
  match cs with
  | '.' :: rest =>
      let f := takeDigits rest
      if f.1.isEmpty then none
      else some ((decDigitsVal f.1 : ℚ) / (10 : ℚ) ^ f.1.length, f.2)
  | _ => some (0, cs)

/-- Exponent part of a JSON number (optional). -/
def parseExp (cs : List Char) : Option (ℤ × List Char) :=
  match cs with
  | c :: rest =>
      if c == 'e' || c == 'E' then
        let p : ℤ × List Char :=
          match rest with
          | '+' :: r => (1, r)
          | '-' :: r => (-1, r)
          | _ => (1, rest)
        let d := takeDigits p.2
        if d.1.isEmpty then none else some (p.1 * decDigitsVal d.1, d.2)
      else some (0, cs)
  | [] => some (0, [])

/-- A JSON number literal (exact rational value). -/
def parseJsonNumber (cs : List Char) : Option (ℚ × List Char) :=
  let p : ℚ × List Char :=
    match cs with
    | '-' :: rest => (-1, rest)
    | _ => (1, cs)
  let ip := takeDigits p.2
  match ip.1 with
  | [] => none
  | '0' :: _ :: _ => none
  | _ =>
      match parseFrac ip.2 with
      | none => none
      | some (fq, r2) =>
          match parseExp r2 with
          | none => none
          | some (e, r3) =>
              some (p.1 * ((decDigitsVal ip.1 : ℚ) + fq) * (10 : ℚ) ^ e, r3)

mutual

/-- One JSON value, with fuel. -/
def parseVal : Nat → List Char → Option (Json × List Char)
  | 0, _ => none
  | Nat.succ fuel, cs =>
      match skipWs cs with
      | [] => none
      | c :: rest =>
          if c == 'n' then
            (if rest.take 3 == ['u', 'l', 'l'] then some (Json.null, rest.drop 3) else none)
          else if c == 't' then
            (if rest.take 3 == ['r', 'u', 'e'] then some (Json.bool true, rest.drop 3) else none)
          else if c == 'f' then
            (if rest.take 4 == ['a', 'l', 's', 'e'] then some (Json.bool false, rest.drop 4) else none)
          else if c == '"' then
            match parseStrBody (rest.length + 1) rest with
            | some (chars, r) => some (Json.str (String.mk chars), r)
            | none => none
          else if c == '[' then parseArr fuel rest
          else if c == Char.ofNat 123 then parseObj fuel rest
          else
            (parseJsonNumber (c :: rest)).map (fun p => (Json.num p.1, p.2))

/-- Array items after `[`. -/
def parseArr : Nat → List Char → Option (Json × List Char)
  | 0, _ => none
  | Nat.succ fuel, cs =>
      match skipWs cs with
      | ']' :: rest => some (Json.arr [], rest)
      | cs2 =>
          match parseVal fuel cs2 with
          | some (v, r) =>
              (parseArrTail fuel r).map (fun p => (Json.arr (v :: p.1), p.2))
          | none => none

/-- `, item ... ]` loop of an array. -/
def parseArrTail : Nat → List Char → Option (List Json × List Char)
  | 0, _ => none
  | Nat.succ fuel, cs =>
      match skipWs cs with
      | ']' :: rest => some ([], rest)
      | ',' :: rest =>
          match parseVal fuel rest with
          | some (v, r) =>
              (parseArrTail fuel r).map (fun p => (v :: p.1, p.2))
          | none => none
      | _ => none

/-- Object members after the opening brace. -/
def parseObj : Nat → List Char → Option (Json × List Char)
  | 0, _ => none
  | Nat.succ fuel, cs =>
      match skipWs cs with
      | c :: rest =>
          if c == Char.ofNat 125 then some (Json.obj [], rest)
          else
            match parseMember fuel (c :: rest) with
            | some (kv, r) =>
                (parseObjTail fuel r).map (fun p => (Json.obj (kv :: p.1), p.2))
            | none => none
      | [] => none

/-- One `"key": value` member. -/
def parseMember : Nat → List Char → Option ((String × Json) × List Char)
  | 0, _ => none
  | Nat.succ fuel, cs =>
      match skipWs cs with
      | '"' :: rest =>
          match parseStrBody (rest.length + 1) rest with
          | some (chars, r) =>
              match skipWs r with
              | ':' :: r2 =>
                  (parseVal fuel r2).map (fun p => ((String.mk chars, p.1), p.2))
              | _ => none
          | none => none
      | _ => none

/-- The `, member ... ` loop of an object, up to the closing brace. -/
def parseObjTail : Nat → List Char → Option (List (String × Json) × List Char)
  | 0, _ => none
  | Nat.succ fuel, cs =>
      match skipWs cs with
      | c :: rest =>
          if c == Char.ofNat 125 then some ([], rest)
          else if c == ',' then
            match parseMember fuel rest with
            | some (kv, r) =>
                (parseObjTail fuel r).map (fun p => (kv :: p.1, p.2))
            | none => none
          else none
      | [] => none

end

/-- `JSON.parse`, returning `none` exactly when it would throw. -/
def jsonParse (s : String) : Option Json :=
  match parseVal (4 * (s.toList.length + 1)) s.toList with
  | some (v, rest) => if (skipWs rest).isEmpty then some v else none
  | none => none

/-! ### The data-URL preamble regexes -/

/-- A line terminator, which `.` in a JS regex does not match. -/
def isLineTerm (c : Char) : Bool :=
  c == '\n' || c == '\r' || c == Char.ofNat 0x2028 || c == Char.ofNat 0x2029

/-- Greedy search for the last `";base64,"` marker reachable by `.*`
(i.e. with no line terminator before it); returns the characters after
the marker. -/
def lastB64Marker : List Char → Option (List Char)
  | [] => none
  | c :: rest =>
      let here :=
        if isPrefixList ";base64,".toList (c :: rest) then
          some ((c :: rest).drop 8)
        else none
      if isLineTerm c then here
      else
        match lastB64Marker rest with
        | some r => some r
        | none => here

/-- `s.replace(/^data:.*;base64,/, "")` with a greedy `.*`. -/
def stripDataUrl (s : String) : String :=
  let cs := s.toList
  if isPrefixList "data:".toList cs then
    match lastB64Marker (cs.drop 5) with
    | some r => String.mk r
    | none => s
  else s

/-! ### Configuration and requests (src/index.js lines 8-23) -/

/-- The environment variables the program reads (`process.env`); a
missing variable is `none`.  `ALLOWED_ORIGINS` carries the destructuring
default `""`. -/
structure Env where
  AZURE_SPEECH_KEY : Option String
  AZURE_SPEECH_REGION : Option String
  PRONOUNCE_SECRET : Option String
  ALLOWED_ORIGINS : String

/-- `allowedOrigins` (line 16): split on commas, trim, drop empties. -/
def allowedOrigins (env : Env) : List String :=
  (((splitOnComma env.ALLOWED_ORIGINS.toList).map (fun g => jsTrim (String.mk g))).filter
    (fun s => s != ""))

/-- `azureRegion` (line 17): `(AZURE_SPEECH_REGION || "").trim().toLowerCase()`. -/
def azureRegion (env : Env) : String :=
  jsToLower (jsTrim ((env.AZURE_SPEECH_REGION).getD ""))

/-- `isAllowedOrigin` (lines 19-23).  The `origin` argument is the
request's Origin header (`none` = header absent). -/
def isAllowedOrigin (env : Env) (origin : Option String) : Bool :=
  match origin with
  | none => true
  | some o =>
      if o == "" then true
      else if (allowedOrigins env).isEmpty then true
      else (allowedOrigins env).contains o

/-- Outcome of the CORS middleware for one request: answer the
preflight with 204, reject with 403, or fall through to the route. -/
inductive CorsOutcome where
  | preflight
  | blocked (body : Json)
  | next

/-- The middleware (lines 30-56): `OPTIONS` is always answered 204;
then a present, truthy Origin not accepted by `isAllowedOrigin` is
rejected 403 with a JSON body; otherwise the request proceeds.  The
always-set CORS headers do not affect status or body and are not
modelled. -/
def corsMiddleware (env : Env) (method : String) (origin : Option String) : CorsOutcome :=
  if method == "OPTIONS" then .preflight
  else
    match origin with
    | some o =>
        if o != "" && !(isAllowedOrigin env (some o)) then
          .blocked (Json.obj [("ok", Json.bool false), ("error", Json.str "CORS blocked"),
            ("origin", Json.str o),
            ("allowedOrigins", Json.arr ((allowedOrigins env).map Json.str))])
        else .next
    | none => .next

/-- A POST /pronounce request: Origin header, the
`x-pronounce-secret` header (`none` = absent) and the parsed JSON
body (`req.body`). -/
structure PronRequest where
  origin : Option String
  xPronounceSecret : Option String
  body : Json

/-! ### Helper functions of the handler (src/index.js lines 72-107) -/

/-- `base64ToBuffer` (lines 72-78): throws
`"audioBase64 missing or invalid"` (modelled as `none`; the handler's
catch turns it into a 500) unless given a string of length ≥ 10, else
strips the greedy `^data:.*;base64,` prefix and decodes. -/
def base64ToBuffer (audioBase64 : Json) : Option (List Nat) :=
  match audioBase64 with
  | Json.str s => if s.length < 10 then none else some (b64decode (stripDataUrl s))
  | _ => none

/-- `detectMime` (lines 80-84): the `^data:([^;]+);base64,` prefix of
the payload, lowercased, or `none`. -/
def detectMime (s : String) : Option String :=
  let cs := s.toList
  if isPrefixList "data:".toList cs then
    let r := cs.drop 5
    let pre := r.takeWhile (fun c => c != ';')
    if !pre.isEmpty && isPrefixList ";base64,".toList (r.drop pre.length) then
      some (jsToLower (String.mk pre))
    else none
  else none

/-- The fixed-shape assessment options object serialized into the
`Pronunciation-Assessment` header (lines 86-93). -/
def pronPayload (referenceText : Json) (enableMiscue : Bool) : Json :=
  Json.obj [
    ("ReferenceText", referenceText),
    ("GradingSystem", Json.str "HundredMark"),
    ("Granularity", Json.str "Phoneme"),
    ("Dimension", Json.str "Comprehensive"),
    ("EnableMiscue", Json.str (if enableMiscue then "True" else "False"))]

/-- `buildPronHeader` (lines 86-95): base64 of the UTF-8 JSON
serialization of the options object. -/
def buildPronHeader (referenceText : Json) (enableMiscue : Bool) : String :=
  b64encode (utf8Encode (stringify (pronPayload referenceText enableMiscue)))

/-- `pickGrade` (lines 97-102).  The score is a JS number (it can be
`NaN`, on which every comparison is false). -/
def pickGrade (score : JsNum) : String :=
  if jsGE score 90 then "excellent"
  else if jsGE score 80 then "good"
  else if jsGE score 70 then "ok"
  else "try_again"

/-- `extractBest` (lines 104-107): first element of an array-shaped
`NBest`, with `nbest[0] || null`. -/
def extractBest (json : Json) : Json :=
  match jsGet json "NBest" with
  | some (Json.arr (x :: _)) => if truthy x then x else Json.null
  | _ => Json.null

/-! ### The POST /pronounce handler (src/index.js lines 109-215)

The handler has a single await point (the `fetch`).  `pronouncePre`
models everything before it: either an early response (validation
failure, misconfiguration, or a caught exception) or the fully built
upstream request.  `pronounceFinish` models everything after the
upstream response arrives. -/

/-- The upstream request the handler issues via `fetch`
(lines 154-174). -/
structure AzureCall where
  endpoint : String
  contentType : String
  subscriptionKey : String
  pronHeader : String
  audioBody : List Nat

/-- Request data carried across the await point into response
shaping. -/
structure ShapeCtx where
  targetText : Json
  language : Json

/-- Result of the pre-upstream phase: an HTTP response sent without
contacting the upstream, or the upstream call to issue. -/
inductive Pre where
  | resp (status : Nat) (body : Json)
  | call (c : AzureCall) (ctx : ShapeCtx)

/-- Whether the pre-phase reaches the upstream call. -/
def callsUpstream : Pre → Bool
  | .resp _ _ => false
  | .call _ _ => true

/-- Response body of the 401 branch (line 115). -/
def unauthorizedBody : Json :=
  Json.obj [("ok", Json.bool false), ("error", Json.str "Unauthorized (bad secret)")]

/-- Response body of the missing-fields branch (lines 120-123). -/
def missingFieldsBody : Json :=
  Json.obj [("ok", Json.bool false),
    ("error", Json.str "Missing fields. Required: targetText, language, audioBase64")]

/-- Response body of the missing-configuration branch (lines 127-130). -/
def missingEnvBody : Json :=
  Json.obj [("ok", Json.bool false),
    ("error", Json.str "Missing env. Required: AZURE_SPEECH_KEY, AZURE_SPEECH_REGION")]

/-- Response body of the unsupported-container branch (lines 138-142). -/
def webmBody (mime : String) : Json :=
  Json.obj [("ok", Json.bool false),
    ("error", Json.str "Unsupported audio container: audio/webm. Record as audio/ogg;codecs=opus or WAV/PCM."),
    ("mime", Json.str mime)]

/-- Response body of the audio-too-short branch (line 151). -/
def tooShortBody : Json :=
  Json.obj [("ok", Json.bool false), ("error", Json.str "Audio too short/empty")]

/-- Response body of the catch-all handler (line 213):
`String(err?.message || err)`. -/
def caughtErrorBody (msg : String) : Json :=
  Json.obj [("ok", Json.bool false), ("error", Json.str msg)]

/-- Engine-dependent TypeError message raised by `.toLowerCase()` on a
truthy non-string `audioMime`; the exact text is not part of the
repository and no statement below depends on it. -/
def toLowerCaseTypeErrorMsg : String :=
  "mime.toLowerCase is not a function"

/-- Result of `(audioMime || mimeFromDataUrl || "").toLowerCase()`
(line 134): the resolved container string, or the TypeError thrown
when a truthy non-string `audioMime` is given. -/
inductive MimeRes where
  | ok (m : String)
  | typeError

/-- Line 134.  `audioMime` is the body field (`none` = absent),
`mimeFromDataUrl` the result of `detectMime`. -/
def resolveMime (audioMime : Option Json) (mimeFromDataUrl : Option String) : MimeRes :=
  match audioMime with
  | some v =>
      if truthy v then
        match v with
        | Json.str m => .ok (jsToLower m)
        | _ => .typeError
      else .ok (jsToLower (mimeFromDataUrl.getD ""))
  | none => .ok (jsToLower (mimeFromDataUrl.getD ""))

/-- `enableMiscue !== false` (line 162): strict comparison, only the
boolean `false` disables miscue detection. -/
def miscueFlagOf : Option Json → Bool
  | some (Json.bool false) => false
  | _ => true

/-- Upper-case hexadecimal digit. -/
def hexCharUpper (n : Nat) : Char :=
  if n < 10 then Char.ofNat (48 + n) else Char.ofNat (55 + n)

/-- Characters `encodeURIComponent` leaves unescaped. -/
def isUriUnreserved (c : Char) : Bool :=
  c.isAlphanum || c == '-' || c == '_' || c == '.' || c == '!' || c == '~' ||
    c == '*' || c == Char.ofNat 39 || c == '(' || c == ')'

/-- `encodeURIComponent`: percent-encode the UTF-8 bytes of every
reserved character. -/
def encodeURIComponent (s : String) : String :=
  String.mk ((s.toList.map (fun c =>
    if isUriUnreserved c then [c]
    else ((utf8Bytes c).map (fun b => ['%', hexCharUpper (b / 16), hexCharUpper (b % 16)])).flatten)).flatten)

/-- The upstream URL (lines 154-158); `language` is interpolated via
`ToString` before `encodeURIComponent`. -/
def pronounceEndpoint (env : Env) (language : Json) : String :=
  "https://" ++ azureRegion env ++ ".stt.speech.microsoft.com" ++
    "/speech/recognition/conversation/cognitiveservices/v1" ++
    "?language=" ++ encodeURIComponent (jsToString language) ++ "&format=detailed"

/-- `req.body || {}` (line 118). -/
def bodyOf (req : PronRequest) : Json :=
  if truthy req.body then req.body else Json.obj []

/-- One destructured body field (line 118); `none` = absent. -/
def fieldOf (req : PronRequest) (k : String) : Option Json :=
  jsGet (bodyOf req) k

/-- The `audioBase64` value once it is known to be truthy. -/
def audioValOf (req : PronRequest) : Json :=
  (fieldOf req "audioBase64").getD Json.null

/-- The secret check condition (lines 112-114):
`!serverSecret || secret !== serverSecret` on the trimmed strings. -/
def secretRejected (env : Env) (req : PronRequest) : Bool :=
  jsTrim ((env.PRONOUNCE_SECRET).getD "") == "" ||
    jsTrim ((req.xPronounceSecret).getD "") != jsTrim ((env.PRONOUNCE_SECRET).getD "")

/-- The required-fields condition (line 119):
`!targetText || !language || !audioBase64`. -/
def fieldsMissing (req : PronRequest) : Bool :=
  !(truthyOpt (fieldOf req "targetText") && truthyOpt (fieldOf req "language") &&
      truthyOpt (fieldOf req "audioBase64"))

/-- The server-configuration condition (line 126):
`!AZURE_SPEECH_KEY || !azureRegion`. -/
def envMissing (env : Env) : Bool :=
  (env.AZURE_SPEECH_KEY).getD "" == "" || azureRegion env == ""

/-- Lines 133-134: the resolved container MIME of a request. -/
def resolvedMime (req : PronRequest) : MimeRes :=
  resolveMime (fieldOf req "audioMime") (detectMime (jsToString (audioValOf req)))

/-- The handler before the upstream call (lines 109-174): secret check,
required fields, server configuration, container resolution and the
WebM rejection, payload decoding and minimum length, then the built
upstream request.  Exceptions (`base64ToBuffer` on a short or
non-string payload, `.toLowerCase` on a non-string `audioMime`) reach
the catch at line 212 and become 500 responses. -/
def pronouncePre (env : Env) (req : PronRequest) : Pre :=
  if secretRejected env req then
    .resp 401 unauthorizedBody
  else if fieldsMissing req then
    .resp 400 missingFieldsBody
  else if envMissing env then
    .resp 500 missingEnvBody
  else
    match resolvedMime req with
    | .typeError => .resp 500 (caughtErrorBody toLowerCaseTypeErrorMsg)
    | .ok mime =>
        if strContains mime "webm" then
          .resp 400 (webmBody mime)
        else
          match base64ToBuffer (audioValOf req) with
          | none => .resp 500 (caughtErrorBody "audioBase64 missing or invalid")
          | some audioBuf =>
              if audioBuf.length < 2000 then
                .resp 400 tooShortBody
              else
                .call
                  ⟨pronounceEndpoint env ((fieldOf req "language").getD Json.null),
                    (if strContains mime "ogg" then "audio/ogg; codecs=opus"
                      else "audio/wav; codecs=audio/pcm; samplerate=16000"),
                    jsTrim ((env.AZURE_SPEECH_KEY).getD ""),
                    buildPronHeader ((fieldOf req "targetText").getD Json.null)
                      (miscueFlagOf (fieldOf req "enableMiscue")),
                    audioBuf⟩
                  ⟨(fieldOf req "targetText").getD Json.null,
                    (fieldOf req "language").getD Json.null⟩

/-- `best?.PronunciationAssessment || {}` (line 190). -/
def paOf (best : Json) : Json :=
  match best with
  | Json.null => Json.obj []
  | b => jsOr (jsGet b "PronunciationAssessment") (Json.obj [])

/-- `pa?.PronScore ?? pa?.AccuracyScore ?? 0` (line 191). -/
def selScore (pa : Json) : Json :=
  coalesce (jsGet pa "PronScore") (coalesce (jsGet pa "AccuracyScore") (Json.num 0))

/-- The 200 response body (lines 189-211), after `res.json`
serialization (so the `NaN`/infinity cases of `overallScore` appear as
`null`). -/
def shapeSuccess (targetText language : Json) (json : Json) : Json :=
  let best := extractBest json
  let pa := paOf best
  let overallScore := jsRound (jsNumber (selScore pa))
  let bestGet : String → Option Json := fun k =>
    match best with
    | Json.null => none
    | b => jsGet b k
  Json.obj [
    ("ok", Json.bool true),
    ("overallScore", jsNumToJson overallScore),
    ("grade", Json.str (pickGrade overallScore)),
    ("details", Json.obj [
      ("targetText", targetText),
      ("language", language),
      ("recognizedText",
        jsOr (bestGet "Lexical") (jsOr (bestGet "Display") (jsOr (jsGet json "DisplayText") (Json.str "")))),
      ("scores", Json.obj [
        ("pronScore", coalesce (jsGet pa "PronScore") Json.null),
        ("accuracyScore", coalesce (jsGet pa "AccuracyScore") Json.null),
        ("fluencyScore", coalesce (jsGet pa "FluencyScore") Json.null),
        ("completenessScore", coalesce (jsGet pa "CompletenessScore") Json.null),
        ("prosodyScore", coalesce (jsGet pa "ProsodyScore") Json.null)]),
      ("words",
        match bestGet "Words" with
        | some (Json.arr ws) => Json.arr ws
        | _ => Json.arr []),
      ("recognitionStatus", coalesce (jsGet json "RecognitionStatus") Json.null)])]

/-- The handler after the upstream response (lines 176-211): read the
body as text, try `JSON.parse` falling back to `{raw}`, surface a
non-2xx upstream status as 502 with `azureStatus` and `azureBody`,
otherwise shape the 200 result. -/
def pronounceFinish (ctx : ShapeCtx) (status : Nat) (raw : String) : Nat × Json :=
  let json := (jsonParse raw).getD (Json.obj [("raw", Json.str raw)])
  if 200 ≤ status ∧ status ≤ 299 then
    (200, shapeSuccess ctx.targetText ctx.language json)
  else
    (502, Json.obj [("ok", Json.bool false), ("error", Json.str "Azure request failed"),
      ("azureStatus", Json.num (status : ℚ)), ("azureBody", json)])

/-! ### Concrete fixtures for witnesses and counterexamples -/

/-- A fully configured environment. -/
def okEnv : Env := ⟨some "k", some "westus", some "s3cret", ""⟩

/-- 2700 base64 characters, decoding to 2025 bytes (≥ 2000). -/
def okAudio : String := String.mk (List.replicate 2700 'A')

/-- A fully valid request body. -/
def okBody : Json :=
  Json.obj [("targetText", Json.str "hello"), ("language", Json.str "en-US"),
    ("audioBase64", Json.str okAudio)]

/-- A fully valid request. -/
def okReq : PronRequest := ⟨none, some "s3cret", okBody⟩

/-- The upstream call `okReq` produces. -/
def okCall : AzureCall :=
  ⟨pronounceEndpoint okEnv (Json.str "en-US"),
    "audio/wav; codecs=audio/pcm; samplerate=16000",
    "k",
    buildPronHeader (Json.str "hello") true,
    b64decode (stripDataUrl okAudio)⟩

/-- The shaping context `okReq` produces. -/
def okCtx : ShapeCtx := ⟨Json.str "hello", Json.str "en-US"⟩

/-- A valid request except for a wrong secret header. -/
def badSecretReq : PronRequest := ⟨none, some "wrong", okBody⟩

/-- A request with a correct secret but no `targetText`. -/
def missReq : PronRequest :=
  ⟨none, some "s3cret",
    Json.obj [("language", Json.str "en-US"), ("audioBase64", Json.str okAudio)]⟩

/-- A valid request whose `audioMime` hint is a WebM variant. -/
def webmReq : PronRequest :=
  ⟨none, some "s3cret",
    Json.obj [("targetText", Json.str "hello"), ("language", Json.str "en-US"),
      ("audioBase64", Json.str okAudio),
      ("audioMime", Json.str "audio/WebM;codecs=opus")]⟩

/-- A valid request whose audio payload is a 12-character base64
string (9 decoded bytes, under the 2000-byte minimum). -/
def shortOkReq : PronRequest :=
  ⟨none, some "s3cret",
    Json.obj [("targetText", Json.str "hello"), ("language", Json.str "en-US"),
      ("audioBase64", Json.str "AAAAAAAAAAAA")]⟩

/-- A valid request whose audio payload is a 4-character base64 string
(3 decoded bytes); `base64ToBuffer` throws on strings shorter than 10
characters. -/
def shortBadReq : PronRequest :=
  ⟨none, some "s3cret",
    Json.obj [("targetText", Json.str "hello"), ("language", Json.str "en-US"),
      ("audioBase64", Json.str "AAAA")]⟩

/-- An upstream body whose `PronScore` is a non-numeric JSON string. -/
def strScoreJson : Json :=
  Json.obj [("NBest", Json.arr [Json.obj [("PronunciationAssessment",
    Json.obj [("PronScore", Json.str "abc")])]])]

/-- An upstream body with a candidate but neither `PronScore` nor
`AccuracyScore`. -/
def noScoreJson : Json :=
  Json.obj [("NBest", Json.arr [Json.obj [("PronunciationAssessment",
    Json.obj [("FluencyScore", Json.num 80)])]])]

/-- An environment whose origin allow-list holds one origin. -/
def corsEnv : Env := ⟨none, none, none, "https://a.example"⟩

/-! ### Helper lemmas -/

/-- The strict `enableMiscue !== false` comparison yields `false` for
exactly the boolean `false`. -/
theorem miscueFlagOf_eq_false_iff (x : Option Json) :
    miscueFlagOf x = false ↔ x = some (Json.bool false) := by
  constructor
  · intro h
    match x with
    | none => simp [miscueFlagOf] at h
    | some Json.null => simp [miscueFlagOf] at h
    | some (Json.bool true) => simp [miscueFlagOf] at h
    | some (Json.bool false) => rfl
    | some (Json.num q) => simp [miscueFlagOf] at h
    | some (Json.str s) => simp [miscueFlagOf] at h
    | some (Json.arr xs) => simp [miscueFlagOf] at h
    | some (Json.obj fs) => simp [miscueFlagOf] at h
  · intro h
    rw [h]
    rfl

/-! ### Claims -/

/-- C1: for every POST /pronounce request whose trimmed
`x-pronounce-secret` header differs from the trimmed configured secret,
or when no server-side secret is configured at all (the configured
secret trims to the empty string, which covers an unset variable), the
handler responds 401 and never reaches the upstream call — for every
body and every further configuration, hence before any other
validation. -/
theorem secret_mismatch_gives_401 (env : Env) (req : PronRequest)
    (h : jsTrim ((req.xPronounceSecret).getD "") ≠ jsTrim ((env.PRONOUNCE_SECRET).getD "") ∨
      jsTrim ((env.PRONOUNCE_SECRET).getD "") = "") :
    pronouncePre env req = Pre.resp 401 unauthorizedBody ∧
      callsUpstream (pronouncePre env req) = false := by
  have hrej : secretRejected env req = true := by
    unfold secretRejected
    rcases h with h | h
    · simp [h]
    · simp [h]
  have heq : pronouncePre env req = Pre.resp 401 unauthorizedBody := by
    simp [pronouncePre, hrej]
  exact ⟨heq, by rw [heq]; rfl⟩

/-- Witness for C1 at a concrete wrong-secret request. -/
theorem secret_mismatch_gives_401_witness :
    pronouncePre okEnv badSecretReq = Pre.resp 401 unauthorizedBody ∧
      callsUpstream (pronouncePre okEnv badSecretReq) = false :=
  secret_mismatch_gives_401 okEnv badSecretReq (Or.inl (by decide))

/-- C4: the grade is a fixed-threshold function of the integer overall
score — at least 90 gives "excellent", 80 to 89 "good", 70 to 79 "ok",
anything below 70 "try_again"; in particular 90, 89, 80, 79, 70, 69
and 0 map to excellent, good, good, ok, ok, try_again and try_again. -/
theorem pickGrade_thresholds (z : ℤ) :
    ((90 : ℤ) ≤ z → pickGrade (JsNum.num (z : ℚ)) = "excellent") ∧
    ((80 : ℤ) ≤ z → z ≤ 89 → pickGrade (JsNum.num (z : ℚ)) = "good") ∧
    ((70 : ℤ) ≤ z → z ≤ 79 → pickGrade (JsNum.num (z : ℚ)) = "ok") ∧
    (z ≤ 69 → pickGrade (JsNum.num (z : ℚ)) = "try_again") ∧
    pickGrade (JsNum.num 90) = "excellent" ∧ pickGrade (JsNum.num 89) = "good" ∧
    pickGrade (JsNum.num 80) = "good" ∧ pickGrade (JsNum.num 79) = "ok" ∧
    pickGrade (JsNum.num 70) = "ok" ∧ pickGrade (JsNum.num 69) = "try_again" ∧
    pickGrade (JsNum.num 0) = "try_again" := by
  refine ⟨?_, ?_, ?_, ?_, rfl, rfl, rfl, rfl, rfl, rfl, rfl⟩
  · intro h
    have hq : (90 : ℚ) ≤ (z : ℚ) := by exact_mod_cast h
    simp [pickGrade, jsGE, hq]
  · intro h1 h2
    have hq1 : (80 : ℚ) ≤ (z : ℚ) := by exact_mod_cast h1
    have hq2 : ¬ ((90 : ℚ) ≤ (z : ℚ)) := by
      have : (z : ℚ) ≤ 89 := by exact_mod_cast h2
      linarith
    simp [pickGrade, jsGE, hq1, hq2]
  · intro h1 h2
    have hq1 : (70 : ℚ) ≤ (z : ℚ) := by exact_mod_cast h1
    have hq2 : ¬ ((80 : ℚ) ≤ (z : ℚ)) := by
      have : (z : ℚ) ≤ 79 := by exact_mod_cast h2
      linarith
    have hq3 : ¬ ((90 : ℚ) ≤ (z : ℚ)) := by linarith
    simp [pickGrade, jsGE, hq1, hq2, hq3]
  · intro h
    have h0 : (z : ℚ) ≤ 69 := by exact_mod_cast h
    have hq1 : ¬ ((70 : ℚ) ≤ (z : ℚ)) := by linarith
    have hq2 : ¬ ((80 : ℚ) ≤ (z : ℚ)) := by linarith
    have hq3 : ¬ ((90 : ℚ) ≤ (z : ℚ)) := by linarith
    simp [pickGrade, jsGE, hq1, hq2, hq3]

/-- Witness for C4 at the integer score 95. -/
theorem pickGrade_thresholds_witness :
    pickGrade (JsNum.num ((95 : ℤ) : ℚ)) = "excellent" :=
  (pickGrade_thresholds 95).1 (by norm_num)

/-- C6: with a correct secret, a request missing (or carrying a falsy)
`targetText`, `language` or `audioBase64` gets a 400 naming the
required field set, and the upstream is never called. -/
theorem missing_fields_gives_400 (env : Env) (req : PronRequest)
    (h1 : secretRejected env req = false)
    (h2 : fieldsMissing req = true) :
    pronouncePre env req = Pre.resp 400 missingFieldsBody ∧
      callsUpstream (pronouncePre env req) = false := by
  have heq : pronouncePre env req = Pre.resp 400 missingFieldsBody := by
    simp [pronouncePre, h1, h2]
  exact ⟨heq, by rw [heq]; rfl⟩

/-- Witness for C6 at a request without `targetText`. -/
theorem missing_fields_gives_400_witness :
    pronouncePre okEnv missReq = Pre.resp 400 missingFieldsBody ∧
      callsUpstream (pronouncePre okEnv missReq) = false :=
  missing_fields_gives_400 okEnv missReq rfl rfl

/-- C7: a non-2xx upstream status is relayed as 502 carrying the
upstream status (`azureStatus`) and the upstream body — parsed as JSON
when the text parses, else the raw text wrapped in `{raw}` — and for a
2xx upstream status the response is 200 whether or not the body text
parses, so a parse failure alone never fails the request. -/
theorem upstream_failure_surfaced (ctx : ShapeCtx) (status : Nat) (raw : String) :
    (¬ (200 ≤ status ∧ status ≤ 299) →
      pronounceFinish ctx status raw =
        (502, Json.obj [("ok", Json.bool false), ("error", Json.str "Azure request failed"),
          ("azureStatus", Json.num (status : ℚ)),
          ("azureBody", (jsonParse raw).getD (Json.obj [("raw", Json.str raw)]))])) ∧
    (200 ≤ status → status ≤ 299 → (pronounceFinish ctx status raw).1 = 200) := by
  constructor
  · intro h
    simp [pronounceFinish, h]
  · intro h1 h2
    simp [pronounceFinish, h1, h2]

/-- Witness for C7 at upstream status 404 with an unparseable body. -/
theorem upstream_failure_surfaced_witness :
    pronounceFinish okCtx 404 "nope" =
      (502, Json.obj [("ok", Json.bool false), ("error", Json.str "Azure request failed"),
        ("azureStatus", Json.num ((404 : Nat) : ℚ)),
        ("azureBody", (jsonParse "nope").getD (Json.obj [("raw", Json.str "nope")]))]) :=
  (upstream_failure_surfaced okCtx 404 "nope").1 (by omega)

/-- C10: a request without an Origin header is never rejected with 403,
whatever the configured allow-list; and the middleware blocks a request
only when its Origin header is present, non-empty, and not a member of
a non-empty configured allow-list. -/
theorem origin_block_conditions (env : Env) (method : String) :
    (∀ b : Json, corsMiddleware env method none ≠ CorsOutcome.blocked b) ∧
    (∀ o : String, ∀ b : Json, corsMiddleware env method (some o) = CorsOutcome.blocked b →
      o ≠ "" ∧ allowedOrigins env ≠ [] ∧ o ∉ allowedOrigins env) := by
  constructor
  · intro b h
    unfold corsMiddleware at h
    split at h
    · exact CorsOutcome.noConfusion h
    · exact CorsOutcome.noConfusion h
  · intro o b h
    unfold corsMiddleware at h
    split at h
    · exact CorsOutcome.noConfusion h
    · split at h
      · rename_i o2 hsome
        injection hsome with ho2
        subst ho2
        split at h
        · rename_i hcond
          have hparts := (Bool.and_eq_true _ _).mp hcond
          have ho : o ≠ "" := by simpa using hparts.1
          have hallow : isAllowedOrigin env (some o) = false := by
            simpa using hparts.2
          simp only [isAllowedOrigin] at hallow
          rw [if_neg (by simpa using ho)] at hallow
          by_cases hemp : (allowedOrigins env).isEmpty = true
          · rw [if_pos hemp] at hallow
            exact absurd hallow (by simp)
          · rw [if_neg hemp] at hallow
            refine ⟨ho, ?_, ?_⟩
            · intro hnil
              exact hemp (by simp [hnil])
            · intro hmem
              simp at hallow
              exact hallow hmem
        · exact CorsOutcome.noConfusion h
      · rename_i hnone
        exact Option.noConfusion hnone

/-- Witness for C10: a concrete blocked origin satisfies the three
conditions. -/
theorem origin_block_conditions_witness :
    ("https://b.example" : String) ≠ "" ∧ allowedOrigins corsEnv ≠ [] ∧
      ("https://b.example" : String) ∉ allowedOrigins corsEnv :=
  (origin_block_conditions corsEnv "POST").2 "https://b.example"
    (Json.obj [("ok", Json.bool false), ("error", Json.str "CORS blocked"),
      ("origin", Json.str "https://b.example"),
      ("allowedOrigins", Json.arr [Json.str "https://a.example"])])
    (by rfl)

/-- C5: a request passing the secret, required-field and
server-configuration checks whose resolved container MIME — the truthy
`audioMime` hint if supplied, else the data-URL prefix of
`audioBase64`, lowercased — contains "webm" is rejected 400 with the
unsupported-container message suggesting Ogg/Opus or WAV/PCM, and the
upstream is never called. -/
theorem webm_rejected (env : Env) (req : PronRequest) (m : String)
    (h1 : secretRejected env req = false)
    (h2 : fieldsMissing req = false)
    (h3 : envMissing env = false)
    (h4 : resolvedMime req = MimeRes.ok m)
    (h5 : strContains m "webm" = true) :
    pronouncePre env req = Pre.resp 400 (webmBody m) ∧
      callsUpstream (pronouncePre env req) = false := by
  have heq : pronouncePre env req = Pre.resp 400 (webmBody m) := by
    simp [pronouncePre, h1, h2, h3, h4, h5]
  exact ⟨heq, by rw [heq]; rfl⟩

/-- Witness for C5 at a request declaring `audioMime` as
"audio/WebM;codecs=opus". -/
theorem webm_rejected_witness :
    pronouncePre okEnv webmReq = Pre.resp 400 (webmBody "audio/webm;codecs=opus") ∧
      callsUpstream (pronouncePre okEnv webmReq) = false :=
  webm_rejected okEnv webmReq "audio/webm;codecs=opus" rfl rfl rfl rfl rfl

/-- C2 (amended): a request passing the secret, required-field,
configuration and WebM checks whose `audioBase64` is a string of at
least 10 characters decoding (after stripping a data-URL preamble) to
fewer than 2000 bytes is rejected 400 ("Audio too short/empty"), and
the upstream is never called.  (Strings shorter than 10 characters
make `base64ToBuffer` throw instead, producing a 500 — see the
counterexample.) -/
theorem short_audio_gives_400 (env : Env) (req : PronRequest) (m : String) (s : String)
    (h1 : secretRejected env req = false)
    (h2 : fieldsMissing req = false)
    (h3 : envMissing env = false)
    (h4 : resolvedMime req = MimeRes.ok m)
    (h5 : strContains m "webm" = false)
    (h6 : audioValOf req = Json.str s)
    (h7 : 10 ≤ s.length)
    (h8 : (b64decode (stripDataUrl s)).length < 2000) :
    pronouncePre env req = Pre.resp 400 tooShortBody ∧
      callsUpstream (pronouncePre env req) = false := by
  have hbuf : base64ToBuffer (audioValOf req) = some (b64decode (stripDataUrl s)) := by
    rw [h6]
    show (if s.length < 10 then none else some (b64decode (stripDataUrl s))) =
      some (b64decode (stripDataUrl s))
    rw [if_neg (by omega)]
  have heq : pronouncePre env req = Pre.resp 400 tooShortBody := by
    simp [pronouncePre, h1, h2, h3, h4, h5, hbuf, h8]
  exact ⟨heq, by rw [heq]; rfl⟩

/-- Witness for C2 at a 12-character audio payload (9 decoded
bytes). -/
theorem short_audio_gives_400_witness :
    pronouncePre okEnv shortOkReq = Pre.resp 400 tooShortBody ∧
      callsUpstream (pronouncePre okEnv shortOkReq) = false :=
  short_audio_gives_400 okEnv shortOkReq "" "AAAAAAAAAAAA" rfl rfl rfl rfl rfl rfl
    (by decide) (by decide)

/-- C2 (counterexample to the claim as stated): a request passing the
secret, field, configuration and WebM checks whose audio payload
decodes to 3 bytes (under 2000) is answered 500 — `base64ToBuffer`
throws on strings shorter than 10 characters — not 400 as the claim
requires. -/
theorem short_audio_counterexample :
    (b64decode (stripDataUrl "AAAA")).length < 2000 ∧
    secretRejected okEnv shortBadReq = false ∧
    fieldsMissing shortBadReq = false ∧
    envMissing okEnv = false ∧
    resolvedMime shortBadReq = MimeRes.ok "" ∧
    strContains "" "webm" = false ∧
    pronouncePre okEnv shortBadReq =
      Pre.resp 500 (caughtErrorBody "audioBase64 missing or invalid") ∧
    (∀ b : Json, pronouncePre okEnv shortBadReq ≠ Pre.resp 400 b) := by
  refine ⟨by decide, rfl, rfl, rfl, rfl, rfl, rfl, ?_⟩
  intro b h
  rw [show pronouncePre okEnv shortBadReq =
    Pre.resp 500 (caughtErrorBody "audioBase64 missing or invalid") from rfl] at h
  injection h with hs hb
  exact absurd hs (by decide)

/-- C3 (amended): the 200 response always carries an `overallScore`
field; it is the integer `⌊q + 1/2⌋` whenever the selected upstream
sub-score is a JSON number `q`, and it is 0 when both `PronScore` and
`AccuracyScore` are absent; a sub-score that does not coerce to a
finite number serializes it as `null` instead (see the
counterexample). -/
theorem overallScore_shape (targetText language json : Json) :
    jsGet (shapeSuccess targetText language json) "overallScore" =
      some (jsNumToJson (jsRound (jsNumber (selScore (paOf (extractBest json)))))) ∧
    (∀ q : ℚ, selScore (paOf (extractBest json)) = Json.num q →
      jsGet (shapeSuccess targetText language json) "overallScore" =
        some (Json.num ((⌊q + 1 / 2⌋ : ℤ) : ℚ))) ∧
    (jsGet (paOf (extractBest json)) "PronScore" = none →
      jsGet (paOf (extractBest json)) "AccuracyScore" = none →
      jsGet (shapeSuccess targetText language json) "overallScore" = some (Json.num 0)) := by
  have hbase : jsGet (shapeSuccess targetText language json) "overallScore" =
      some (jsNumToJson (jsRound (jsNumber (selScore (paOf (extractBest json)))))) := rfl
  refine ⟨hbase, ?_, ?_⟩
  · intro q hq
    rw [hbase, hq]
    simp [jsNumber, jsRound, jsNumToJson]
  · intro hp ha
    have hsel : selScore (paOf (extractBest json)) = Json.num 0 := by
      unfold selScore
      rw [hp, ha]
      rfl
    rw [hbase, hsel]
    norm_num [jsNumber, jsRound, jsNumToJson]

/-- Witness for C3 at an upstream body with a candidate but neither
`PronScore` nor `AccuracyScore`: the overall score is 0. -/
theorem overallScore_shape_witness :
    jsGet (shapeSuccess (Json.str "hello") (Json.str "en-US") noScoreJson) "overallScore" =
      some (Json.num 0) :=
  (overallScore_shape (Json.str "hello") (Json.str "en-US") noScoreJson).2.2 rfl rfl

/-- C3 (counterexample to the claim as stated): for the upstream JSON
body whose `PronScore` is the string "abc", the serialized
`overallScore` is `null` — present, but not an integer — because
`Number("abc")` is `NaN` and `JSON.stringify` renders `NaN` as
`null`. -/
theorem overallScore_counterexample :
    jsGet (shapeSuccess (Json.str "hello") (Json.str "en-US") strScoreJson) "overallScore" =
      some Json.null ∧
    (∀ q : ℚ, jsGet (shapeSuccess (Json.str "hello") (Json.str "en-US") strScoreJson)
      "overallScore" ≠ some (Json.num q)) := by
  constructor
  · rfl
  · intro q h
    rw [show jsGet (shapeSuccess (Json.str "hello") (Json.str "en-US") strScoreJson)
      "overallScore" = some Json.null from rfl] at h
    injection h with h
    exact Json.noConfusion h

/-- C8: every issued upstream request carries as
`Pronunciation-Assessment` header exactly the base64 encoding of the
JSON serialization of the object with `ReferenceText` the request's
`targetText`, `GradingSystem` "HundredMark", `Granularity` "Phoneme",
`Dimension` "Comprehensive", and `EnableMiscue` the literal string
"True" or "False", where the flag is `false` exactly for
`enableMiscue === false` — hence `true` when the field is omitted. -/
theorem pron_header_built (env : Env) (req : PronRequest) (c : AzureCall) (ctx : ShapeCtx)
    (h : pronouncePre env req = Pre.call c ctx) :
    c.pronHeader = b64encode (utf8Encode (stringify (Json.obj [
      ("ReferenceText", (fieldOf req "targetText").getD Json.null),
      ("GradingSystem", Json.str "HundredMark"),
      ("Granularity", Json.str "Phoneme"),
      ("Dimension", Json.str "Comprehensive"),
      ("EnableMiscue",
        Json.str (if miscueFlagOf (fieldOf req "enableMiscue") then "True" else "False"))]))) ∧
    (miscueFlagOf (fieldOf req "enableMiscue") = false ↔
      fieldOf req "enableMiscue" = some (Json.bool false)) := by
  refine ⟨?_, miscueFlagOf_eq_false_iff _⟩
  unfold pronouncePre at h
  split at h
  · exact Pre.noConfusion h
  split at h
  · exact Pre.noConfusion h
  split at h
  · exact Pre.noConfusion h
  split at h
  · exact Pre.noConfusion h
  split at h
  · exact Pre.noConfusion h
  split at h
  · exact Pre.noConfusion h
  split at h
  · exact Pre.noConfusion h
  injection h with hc hctx
  rw [← hc]
  rfl

/-- Decoding a run of base64 `A` characters gives zero sextets. -/
theorem b64Sextets_replicate_A (n : Nat) :
    b64Sextets (List.replicate n 'A') = List.replicate n 0 := by
  induction n with
  | zero => rfl
  | succ k ih =>
      rw [List.replicate_succ, List.replicate_succ]
      show 0 :: b64Sextets (List.replicate k 'A') = 0 :: List.replicate k 0
      rw [ih]

/-- One full group of zero sextets decodes to three zero bytes. -/
theorem sextetsToBytes_zero_cons (l : List Nat) :
    sextetsToBytes (0 :: 0 :: 0 :: 0 :: l) = 0 :: 0 :: 0 :: sextetsToBytes l := rfl

/-- `4k` zero sextets decode to `3k` zero bytes. -/
theorem sextetsToBytes_replicate_zero (k : Nat) :
    sextetsToBytes (List.replicate (4 * k) 0) = List.replicate (3 * k) 0 := by
  induction k with
  | zero => rfl
  | succ m ih =>
      have h1 : 4 * (m + 1) = 4 * m + 4 := by ring
      have h2 : 3 * (m + 1) = 3 * m + 3 := by ring
      rw [h1, h2]
      show sextetsToBytes (0 :: 0 :: 0 :: 0 :: List.replicate (4 * m) 0) =
        0 :: 0 :: 0 :: List.replicate (3 * m) 0
      rw [sextetsToBytes_zero_cons, ih]

/-- The 2700-character fixture decodes to 2025 zero bytes. -/
theorem okAudio_decode : b64decode (stripDataUrl okAudio) = List.replicate 2025 0 := by
  have h1 : stripDataUrl okAudio = okAudio := rfl
  rw [h1]
  show sextetsToBytes (b64Sextets okAudio.toList) = List.replicate 2025 0
  have h2 : okAudio.toList = List.replicate 2700 'A' := rfl
  rw [h2, b64Sextets_replicate_A]
  have h3 : (2700 : Nat) = 4 * 675 := by norm_num
  rw [h3, sextetsToBytes_replicate_zero]

/-- The audio fixture has 2700 characters. -/
theorem okAudio_length : okAudio.length = 2700 := by
  have h : okAudio.length = (List.replicate 2700 'A').length := rfl
  rw [h, List.length_replicate]

/-- The fully valid request reaches the upstream call with the
expected components. -/
theorem okReq_reaches_call : pronouncePre okEnv okReq = Pre.call okCall okCtx := by
  have hval : audioValOf okReq = Json.str okAudio := rfl
  have hbuf : base64ToBuffer (audioValOf okReq) = some (b64decode (stripDataUrl okAudio)) := by
    rw [hval]
    show (if okAudio.length < 10 then none else some (b64decode (stripDataUrl okAudio))) =
      some (b64decode (stripDataUrl okAudio))
    rw [if_neg (by rw [okAudio_length]; omega)]
  have hlen : ¬ ((b64decode (stripDataUrl okAudio)).length < 2000) := by
    rw [okAudio_decode, List.length_replicate]
    omega
  have h1 : secretRejected okEnv okReq = false := rfl
  have h2 : fieldsMissing okReq = false := rfl
  have h3 : envMissing okEnv = false := rfl
  have h4 : resolvedMime okReq = MimeRes.ok "" := rfl
  have h5 : strContains "" "webm" = false := rfl
  have h6 : strContains "" "ogg" = false := rfl
  simp only [pronouncePre, h1, h2, h3, h4, h5, h6, hbuf, hlen, Bool.false_eq_true,
    if_false, ite_false]
  rfl

/-- Witness for C8 at the fully valid request `okReq`. -/
theorem pron_header_built_witness :
    okCall.pronHeader = b64encode (utf8Encode (stringify (Json.obj [
      ("ReferenceText", (fieldOf okReq "targetText").getD Json.null),
      ("GradingSystem", Json.str "HundredMark"),
      ("Granularity", Json.str "Phoneme"),
      ("Dimension", Json.str "Comprehensive"),
      ("EnableMiscue",
        Json.str (if miscueFlagOf (fieldOf okReq "enableMiscue") then "True" else "False"))]))) ∧
    (miscueFlagOf (fieldOf okReq "enableMiscue") = false ↔
      fieldOf okReq "enableMiscue" = some (Json.bool false)) :=
  pron_header_built okEnv okReq okCall okCtx okReq_reaches_call

/-- C9: the `EnableMiscue` entry of the assessment-options payload is
"False" exactly when the request's `enableMiscue` field is the boolean
`false`; any other value — 0, the empty string, `null`, the string
"false", or an absent field — yields "True", because the handler
compares with `enableMiscue !== false`. -/
theorem enableMiscue_strict (t : Json) (v : Option Json) :
    (jsGet (pronPayload t (miscueFlagOf v)) "EnableMiscue" = some (Json.str "False") ↔
      v = some (Json.bool false)) ∧
    miscueFlagOf (some (Json.num 0)) = true ∧
    miscueFlagOf (some (Json.str "")) = true ∧
    miscueFlagOf (some Json.null) = true ∧
    miscueFlagOf (some (Json.str "false")) = true ∧
    miscueFlagOf none = true := by
  refine ⟨?_, rfl, rfl, rfl, rfl, rfl⟩
  have hget : jsGet (pronPayload t (miscueFlagOf v)) "EnableMiscue" =
      some (Json.str (if miscueFlagOf v then "True" else "False")) := rfl
  rw [hget]
  constructor
  · intro h
    cases hb : miscueFlagOf v
    · exact (miscueFlagOf_eq_false_iff v).mp hb
    · rw [hb] at h
      simp at h
  · intro h
    rw [(miscueFlagOf_eq_false_iff v).mpr h]
    rfl

end Pronounce
